import Mathlib

/-!
Shallow embedding of the AI-provider dispatch / result-normalization facade of
the movie-identification platform, translated from:
  - src/src/services/aiProviders.ts   (OpenAIProvider, GeminiProvider, and a
    second AIService variant with credential validation, concatenated in the
    same file)
  - src/src/services/aiService.ts     (client AIService variant, demo fallback)
  - src/server/services/aiService.js  (server AIService variant)

JavaScript dynamic values flowing through the facade are modelled by a `Json`
inductive; JSON numbers are modelled as rationals (ℚ).  `JSON.parse` is a host
builtin; it is modelled by an executable recursive-descent parser `parseJson`
that accepts the JSON fragment relevant here (null/true/false, integer and
decimal-fraction numbers, strings with the common escapes, arrays, objects).
Exponent notation and `\u` escapes are outside the model; theorems about
parsed replies take `parseJson s = some p` as a hypothesis, so the restriction
never weakens a proved statement.
-/

/-- A JavaScript/JSON value.  Objects are ordered field lists; a later entry
with the same key shadows an earlier one, matching JS object semantics (last
duplicate key wins, spread-then-override). -/
inductive Json where
  | null : Json
  | bool : Bool → Json
  | num : ℚ → Json
  | str : String → Json
  | arr : List Json → Json
  | obj : List (String × Json) → Json
deriving Repr

/-- JS truthiness of a value: `null`, `false`, `0`, and `""` are falsy;
arrays and objects (even empty ones) are truthy. -/
def Json.truthy : Json → Bool
  | .null => false
  | .bool b => b
  | .num q => q != 0
  | .str s => s != ""
  | .arr _ => true
  | .obj _ => true

/-- Is the value an array? -/
def Json.isArr : Json → Bool
  | .arr _ => true
  | _ => false

/-- Last-wins association lookup, matching JS property access on an object
whose fields were collected in order. -/
def lookupLast : List (String × Json) → String → Option Json
  | [], _ => none
  | (k', v) :: rest, k =>
    match lookupLast rest k with
    | some r => some r
    | none => if k' == k then some v else none

/-- JS property access `j.k`: `undefined` (here `none`) on anything but an
object carrying the field. -/
def getField (j : Json) (k : String) : Option Json :=
  match j with
  | .obj fs => lookupLast fs k
  | _ => none

/-- The fields of an object, `[]` for primitives: models the object spread
`{...j}` (spreading a primitive contributes no enumerable fields; the
string-index corner of spreading a string is outside the model, no code path
here spreads a string). -/
def fieldsOf : Json → List (String × Json)
  | .obj fs => fs
  | _ => []

mutual

/-- Decidable equality of `Json` values (the `deriving` handler does not cover
nested inductives, so it is spelled out). -/
def decEqJson : (a b : Json) → Decidable (a = b)
  | .null, .null => isTrue rfl
  | .null, .bool _ => isFalse (fun h => Json.noConfusion h)
  | .null, .num _ => isFalse (fun h => Json.noConfusion h)
  | .null, .str _ => isFalse (fun h => Json.noConfusion h)
  | .null, .arr _ => isFalse (fun h => Json.noConfusion h)
  | .null, .obj _ => isFalse (fun h => Json.noConfusion h)
  | .bool _, .null => isFalse (fun h => Json.noConfusion h)
  | .bool a, .bool b =>
    match decEq a b with
    | isTrue h => isTrue (by rw [h])
    | isFalse h => isFalse (fun e => h (Json.bool.inj e))
  | .bool _, .num _ => isFalse (fun h => Json.noConfusion h)
  | .bool _, .str _ => isFalse (fun h => Json.noConfusion h)
  | .bool _, .arr _ => isFalse (fun h => Json.noConfusion h)
  | .bool _, .obj _ => isFalse (fun h => Json.noConfusion h)
  | .num _, .null => isFalse (fun h => Json.noConfusion h)
  | .num _, .bool _ => isFalse (fun h => Json.noConfusion h)
  | .num a, .num b =>
    match decEq a b with
    | isTrue h => isTrue (by rw [h])
    | isFalse h => isFalse (fun e => h (Json.num.inj e))
  | .num _, .str _ => isFalse (fun h => Json.noConfusion h)
  | .num _, .arr _ => isFalse (fun h => Json.noConfusion h)
  | .num _, .obj _ => isFalse (fun h => Json.noConfusion h)
  | .str _, .null => isFalse (fun h => Json.noConfusion h)
  | .str _, .bool _ => isFalse (fun h => Json.noConfusion h)
  | .str _, .num _ => isFalse (fun h => Json.noConfusion h)
  | .str a, .str b =>
    match decEq a b with
    | isTrue h => isTrue (by rw [h])
    | isFalse h => isFalse (fun e => h (Json.str.inj e))
  | .str _, .arr _ => isFalse (fun h => Json.noConfusion h)
  | .str _, .obj _ => isFalse (fun h => Json.noConfusion h)
  | .arr _, .null => isFalse (fun h => Json.noConfusion h)
  | .arr _, .bool _ => isFalse (fun h => Json.noConfusion h)
  | .arr _, .num _ => isFalse (fun h => Json.noConfusion h)
  | .arr _, .str _ => isFalse (fun h => Json.noConfusion h)
  | .arr xs, .arr ys =>
    match decEqJsonList xs ys with
    | isTrue h => isTrue (by rw [h])
    | isFalse h => isFalse (fun e => h (Json.arr.inj e))
  | .arr _, .obj _ => isFalse (fun h => Json.noConfusion h)
  | .obj _, .null => isFalse (fun h => Json.noConfusion h)
  | .obj _, .bool _ => isFalse (fun h => Json.noConfusion h)
  | .obj _, .num _ => isFalse (fun h => Json.noConfusion h)
  | .obj _, .str _ => isFalse (fun h => Json.noConfusion h)
  | .obj _, .arr _ => isFalse (fun h => Json.noConfusion h)
  | .obj xs, .obj ys =>
    match decEqJsonFields xs ys with
    | isTrue h => isTrue (by rw [h])
    | isFalse h => isFalse (fun e => h (Json.obj.inj e))

/-- Decidable equality of lists of `Json` values. -/
def decEqJsonList : (a b : List Json) → Decidable (a = b)
  | [], [] => isTrue rfl
  | [], _ :: _ => isFalse (fun h => List.noConfusion h)
  | _ :: _, [] => isFalse (fun h => List.noConfusion h)
  | x :: xs, y :: ys =>
    match decEqJson x y, decEqJsonList xs ys with
    | isTrue h1, isTrue h2 => isTrue (by rw [h1, h2])
    | isFalse h1, _ => isFalse (fun e => h1 (List.cons.inj e).1)
    | _, isFalse h2 => isFalse (fun e => h2 (List.cons.inj e).2)

/-- Decidable equality of `Json` object field lists. -/
def decEqJsonFields : (a b : List (String × Json)) → Decidable (a = b)
  | [], [] => isTrue rfl
  | [], _ :: _ => isFalse (fun h => List.noConfusion h)
  | _ :: _, [] => isFalse (fun h => List.noConfusion h)
  | (k1, v1) :: xs, (k2, v2) :: ys =>
    match decEq k1 k2, decEqJson v1 v2, decEqJsonFields xs ys with
    | isTrue h1, isTrue h2, isTrue h3 => isTrue (by rw [h1, h2, h3])
    | isFalse h1, _, _ =>
      isFalse (fun e => h1 (congrArg Prod.fst (List.cons.inj e).1))
    | _, isFalse h2, _ =>
      isFalse (fun e => h2 (congrArg Prod.snd (List.cons.inj e).1))
    | _, _, isFalse h3 => isFalse (fun e => h3 (List.cons.inj e).2)

end

instance : DecidableEq Json := decEqJson

/-! ### A model of the host `JSON.parse` builtin -/

/-- Skip JSON whitespace. -/
def skipWs : List Char → List Char
  | [] => []
  | c :: cs => if c = ' ' ∨ c = '\n' ∨ c = '\t' ∨ c = '\r' then skipWs cs else c :: cs

/-- Split a character list into its leading run of decimal digits and the
rest. -/
def spanDigits : List Char → List Char × List Char
  | [] => ([], [])
  | c :: cs =>
    if c.isDigit then
      let (d, r) := spanDigits cs
      (c :: d, r)
    else ([], c :: cs)

/-- The natural number denoted by a digit string. -/
def natOfDigits : List Char → Nat :=
  List.foldl (fun a c => a * 10 + (c.toNat - 48)) 0

/-- Parse a JSON number (optional sign, integer part, optional decimal
fraction; exponent notation is outside the model). -/
def parseNumber (s : List Char) : Option (ℚ × List Char) :=
  let (neg, s1) := match s with
    | '-' :: r => (true, r)
    | _ => (false, s)
  let (ds, r1) := spanDigits s1
  if ds.isEmpty then none
  else
    let intPart : ℚ := (natOfDigits ds : ℚ)
    match r1 with
    | '.' :: r2 =>
      let (fs, r3) := spanDigits r2
      if fs.isEmpty then none
      else
        let q : ℚ := intPart + (natOfDigits fs : ℚ) / ((10 : ℚ) ^ fs.length)
        some (if neg then -q else q, r3)
    | _ => some (if neg then -intPart else intPart, r1)

/-- Translate a JSON string escape character (the `\u` form is outside the
model). -/
def escChar (e : Char) : Option Char :=
  if e = '"' ∨ e = '\\' ∨ e = '/' then some e
  else if e = 'n' then some '\n'
  else if e = 't' then some '\t'
  else if e = 'r' then some '\r'
  else none

/-- Parse the body of a JSON string literal up to the closing quote. -/
def parseStrChars : List Char → Option (List Char × List Char)
  | [] => none
  | '"' :: r => some ([], r)
  | '\\' :: rest =>
    match rest with
    | [] => none
    | e :: r =>
      match escChar e with
      | none => none
      | some c =>
        match parseStrChars r with
        | none => none
        | some (cs, rem) => some (c :: cs, rem)
  | c :: r =>
    match parseStrChars r with
    | none => none
    | some (cs, rem) => some (c :: cs, rem)

mutual

/-- Fuelled recursive-descent parser for a JSON value. -/
def parseVal : Nat → List Char → Option (Json × List Char)
  | 0, _ => none
  | f + 1, s =>
    match skipWs s with
    | 'n' :: 'u' :: 'l' :: 'l' :: r => some (.null, r)
    | 't' :: 'r' :: 'u' :: 'e' :: r => some (.bool true, r)
    | 'f' :: 'a' :: 'l' :: 's' :: 'e' :: r => some (.bool false, r)
    | '"' :: r =>
      match parseStrChars r with
      | none => none
      | some (cs, rem) => some (.str (String.mk cs), rem)
    | '[' :: r =>
      (match skipWs r with
       | ']' :: r2 => some (.arr [], r2)
       | _ => parseElems f r [])
    | '{' :: r =>
      (match skipWs r with
       | '}' :: r2 => some (.obj [], r2)
       | _ => parseMembers f r [])
    | s1 =>
      match parseNumber s1 with
      | none => none
      | some (q, r) => some (.num q, r)

/-- Parse the comma-separated elements of a JSON array (accumulator in
reverse). -/
def parseElems : Nat → List Char → List Json → Option (Json × List Char)
  | 0, _, _ => none
  | f + 1, s, acc =>
    match parseVal f s with
    | none => none
    | some (j, r) =>
      match skipWs r with
      | ',' :: r2 => parseElems f r2 (j :: acc)
      | ']' :: r2 => some (.arr (j :: acc).reverse, r2)
      | _ => none

/-- Parse the comma-separated members of a JSON object (accumulator in
reverse). -/
def parseMembers : Nat → List Char → List (String × Json) → Option (Json × List Char)
  | 0, _, _ => none
  | f + 1, s, acc =>
    match skipWs s with
    | '"' :: r =>
      match parseStrChars r with
      | none => none
      | some (kcs, r1) =>
        match skipWs r1 with
        | ':' :: r2 =>
          match parseVal f r2 with
          | none => none
          | some (v, r3) =>
            match skipWs r3 with
            | ',' :: r4 => parseMembers f r4 ((String.mk kcs, v) :: acc)
            | '}' :: r4 => some (.obj ((String.mk kcs, v) :: acc).reverse, r4)
            | _ => none
        | _ => none
    | _ => none

end

/-- Model of `JSON.parse`: parse the whole string as one JSON value, rejecting
trailing garbage.  The fuel `2 * length + 4` is ample for any input the
theorems evaluate; universal theorems only assume `parseJson s = some p`. -/
def parseJson (s : String) : Option Json :=
  match parseVal (2 * s.length + 4) s.toList with
  | some (j, r) => if (skipWs r).isEmpty then some j else none
  | none => none

/-! ### The greedy bracket match

`text.match(/\x7b[\s\S]*\x7d/)` (GeminiProvider.parseGeminiResponse in
src/src/services/aiProviders.ts and src/server/services/aiService.js) matches
from the first opening brace to the last closing brace of the whole text, or
fails when no closing brace follows an opening one. -/

/-- The suffix of the text starting at its first opening brace. -/
def dropToBrace : List Char → Option (List Char)
  | [] => none
  | c :: cs => if c = '{' then some (c :: cs) else dropToBrace cs

/-- The prefix of the text ending at its last closing brace. -/
def takeToLastClose : List Char → Option (List Char)
  | [] => none
  | c :: cs =>
    match takeToLastClose cs with
    | some r => some (c :: r)
    | none => if c = '}' then some [c] else none

/-- The substring matched by the greedy brace regex: from the first opening
brace through the last closing brace, provided the latter comes after the
former. -/
def extractBraces (cs : List Char) : Option (List Char) :=
  match dropToBrace cs with
  | some (c :: rest) =>
    (match takeToLastClose rest with
     | some r => some (c :: r)
     | none => none)
  | _ => none

/-! ### Provider adapters

`OpenAIProvider.identify` and `GeminiProvider.identify` from
src/src/services/aiProviders.ts (the server-side copies in
src/server/services/aiService.js have the same normalization logic; their
catch branch uses `error.message` directly, which on an `Error` cause agrees
with the client variants modelled here).

The external world of one adapter call is passed in explicitly:
the id generator (`Math.random().toString(36).substr(2, 9)` draws, one per
generated id, in call order), the measured elapsed wall-clock time
(`Date.now() - startTime`), and the outcome of the single external HTTP call.
Each adapter returns its response envelope together with the number of
external call attempts it made. -/

/-- A thrown JavaScript value: either an `Error` carrying a message, or some
other value (`isError = false`), which the catch branches replace with a
default message. -/
structure JsCause where
  isError : Bool
  message : String

/-- The `AIResponse` envelope.  `results` and `confidence` are dynamic values
in JS (the code can and does place non-array / out-of-range data there), so
they are modelled as `Json`. -/
structure AIResponse where
  success : Bool
  results : Json
  processingTime : Nat
  confidence : Json
  error : Option String
deriving DecidableEq

/-- The failure envelope built by every catch branch. -/
def failResp (elapsed : Nat) (msg : String) : AIResponse :=
  { success := false
  , results := Json.arr []
  , processingTime := elapsed
  , confidence := Json.num 0
  , error := some msg }

/-- The hardcoded stock-photo poster URL (`generatePosterUrl`). -/
def posterUrl400 : String :=
  "https://images.pexels.com/photos/7991579/pexels-photo-7991579.jpeg?auto=compress&cs=tinysrgb&w=400"

/-- The hardcoded stock-photo backdrop URL (`generateBackdropUrl`). -/
def backdropUrl800 : String :=
  "https://images.pexels.com/photos/7991579/pexels-photo-7991579.jpeg?auto=compress&cs=tinysrgb&w=800"

/-- Map a list with the running index, starting at `n`. -/
def mapFrom (f : Nat → Json → Json) : Nat → List Json → List Json
  | _, [] => []
  | i, r :: rs => f i r :: mapFrom f (i + 1) rs

/-- One step of the OpenAI results mapping:
`(result) => (\x7b ...result, id: <fresh>, poster: ..., backdrop: ... \x7d)`.
Spread-then-override is modelled by appending the three overriding fields
(`lookupLast` makes later fields win). -/
def addIdArt (g : Nat → String) (i : Nat) (r : Json) : Json :=
  Json.obj (fieldsOf r ++
    [ ("id", Json.str (g i))
    , ("poster", Json.str posterUrl400)
    , ("backdrop", Json.str backdropUrl800) ])

/-- `parsedResponse.results[0]?.confidence || 85`: the first result's
confidence when present and truthy, else the arbitrary default 85. -/
def openaiTopConfidence (rs : List Json) : Json :=
  match rs.head? with
  | none => Json.num 85
  | some r0 =>
    match getField r0 "confidence" with
    | some v => if v.truthy then v else Json.num 85
    | none => Json.num 85

/-- Host-defined `SyntaxError` message thrown by `JSON.parse` on malformed
input (exact wording is engine-specific; only its presence matters here). -/
def jsonSyntaxErrorMsg : String := "Unexpected token in JSON"

/-- Host-defined `TypeError` message thrown by `.map` on a non-array (exact
wording is engine-specific; only its presence matters here). -/
def mapTypeErrorMsg : String := "parsedResponse.results.map is not a function"

/-- `OpenAIProvider.identify`, given the outcome of its one
`chat.completions.create` call: `none` models an absent
`choices[0]?.message?.content`.  Second component: external call attempts. -/
def openaiIdentify (g : Nat → String) (elapsed : Nat)
    (call : Except JsCause (Option String)) : AIResponse × Nat :=
  match call with
  | .error c =>
    (failResp elapsed (if c.isError then c.message else "Unknown error occurred"), 1)
  | .ok content =>
    match content with
    | none => (failResp elapsed "No response from OpenAI", 1)
    | some s =>
      if s = "" then (failResp elapsed "No response from OpenAI", 1)
      else
        match parseJson s with
        | none => (failResp elapsed jsonSyntaxErrorMsg, 1)
        | some p =>
          match getField p "results" with
          | some (Json.arr rs) =>
            ({ success := true
             , results := Json.arr (mapFrom (addIdArt g) 0 rs)
             , processingTime := elapsed
             , confidence := openaiTopConfidence rs
             , error := none }, 1)
          | _ => (failResp elapsed mapTypeErrorMsg, 1)

/-- The synthetic `MovieResult` built by `parseGeminiResponse` when no JSON
can be extracted from the raw reply (`rating: 7.0` is the rational 7). -/
def geminiFallbackMatch (gid : String) (text : String) : Json :=
  Json.obj
    [ ("id", Json.str gid)
    , ("title", Json.str "Content Identified")
    , ("year", Json.num 2023)
    , ("type", Json.str "movie")
    , ("genre", Json.arr [Json.str "Unknown"])
    , ("rating", Json.num 7)
    , ("duration", Json.str "120 min")
    , ("description", Json.str (text.take 200 ++ "..."))
    , ("poster", Json.str posterUrl400)
    , ("backdrop", Json.str backdropUrl800)
    , ("cast", Json.arr [Json.str "Unknown"])
    , ("director", Json.str "Unknown")
    , ("confidence", Json.num 75)
    , ("platforms", Json.arr []) ]

/-- The greedy brace match followed by `JSON.parse` on the matched substring
(`none` when either step fails, i.e. when the try block falls through). -/
def geminiExtractParse (text : String) : Option Json :=
  match extractBraces text.toList with
  | some sub => parseJson (String.mk sub)
  | none => none

/-- `GeminiProvider.parseGeminiResponse`: on an extracted and parsed object,
`parsed.results || [parsed]` (the field value when truthy, else the whole
object wrapped singly); otherwise the synthetic fallback match. -/
def parseGeminiResponse (gid : String) (text : String) : Json :=
  match geminiExtractParse text with
  | some parsed =>
    (match getField parsed "results" with
     | some v => if v.truthy then v else Json.arr [parsed]
     | none => Json.arr [parsed])
  | none => Json.arr [geminiFallbackMatch gid text]

/-- `GeminiProvider.identify`, given the outcome of its one
`generateContent` call (the reply's text on success).  Second component:
external call attempts. -/
def geminiIdentify (g : Nat → String) (elapsed : Nat)
    (call : Except JsCause String) : AIResponse × Nat :=
  match call with
  | .error c =>
    (failResp elapsed (if c.isError then c.message else "Gemini API error"), 1)
  | .ok text =>
    ({ success := true
     , results := parseGeminiResponse (g 0) text
     , processingTime := elapsed
     , confidence := Json.num 88
     , error := none }, 1)

/-! ### The AIService registry and dispatcher

Three variants exist in the repository:
  - the client variant of src/src/services/aiService.ts ("TS"): no credential
    validation, `setApiKey` stores unconditionally and returns nothing, and
    `getFallbackResponse` returns a hardcoded demo match with `success: true`;
  - the second client variant concatenated in src/src/services/aiProviders.ts
    ("V", validated): `isValidApiKey` gates both initialization and
    `setApiKey` (which returns a boolean), and the fallback is an explicit
    `success: false` error envelope;
  - the server variant of src/server/services/aiService.js ("Server"):
    fallback like V, but `setProvider` throws on an unregistered key.
-/

/-- Does `p` occur as a leading substring of `s`?  (JS `String.startsWith`.) -/
def strStartsWith (s pat : String) : Bool :=
  go pat.toList s.toList
where
  /-- List form of the leading-substring test. -/
  go : List Char → List Char → Bool
  | [], _ => true
  | _ :: _, [] => false
  | a :: p1, b :: s1 => a == b && go p1 s1

/-- Does `pat` occur as a substring of `s`?  (JS `String.includes`.) -/
def strContains (s pat : String) : Bool :=
  go pat.toList s.toList
where
  /-- List form of the substring test: a match at the head, or in the tail. -/
  go : List Char → List Char → Bool
  | p, [] => strStartsWith.go p []
  | p, c :: s1 => strStartsWith.go p (c :: s1) || go p s1

/-- `AIService.isValidApiKey` (validated variant in
src/src/services/aiProviders.ts): rejects empty and placeholder-looking
credentials, then applies a per-provider prefix/length heuristic. -/
def isValidApiKey (provider apiKey : String) : Bool :=
  if apiKey == "" || strContains apiKey "your_" || strContains apiKey "here"
      || strContains apiKey "***" then
    false
  else if provider == "openai" then
    strStartsWith apiKey "sk-" && apiKey.length > 20
  else if provider == "gemini" then
    strStartsWith apiKey "AIza" && apiKey.length > 20
  else
    false

/-- A registered adapter instance, keeping the credential it was built
with. -/
inductive ProviderInst where
  | openai (credential : String)
  | gemini (credential : String)
deriving DecidableEq

/-- The mutable state of an `AIService`: the provider registry (a `Map`, so
keys are unique; modelled as a replace-on-set association list) and the
active provider key (initially `"openai"` in all variants). -/
structure ServiceState where
  providers : List (String × ProviderInst)
  currentProvider : String
deriving DecidableEq

/-- First-match association lookup (`Map.get`; keys are kept unique by
`regSet`). -/
def regGet : List (String × ProviderInst) → String → Option ProviderInst
  | [], _ => none
  | (k', v) :: rest, k => if k' == k then some v else regGet rest k

/-- `Map.set`: replace the binding for `k`, or append it. -/
def regSet : List (String × ProviderInst) → String → ProviderInst →
    List (String × ProviderInst)
  | [], k, v => [(k, v)]
  | (k', v') :: rest, k, v =>
    if k' == k then (k, v) :: rest else (k', v') :: regSet rest k v

/-- `AIService.setProvider` of both client variants: adopt the key only when
it is registered, silently keeping the previous selection otherwise. -/
def setProviderClient (st : ServiceState) (providerName : String) : ServiceState :=
  if (regGet st.providers providerName).isSome then
    { st with currentProvider := providerName }
  else st

/-- `AIService.setProvider` of the server variant: adopt a registered key,
throw `Provider <name> not available` otherwise. -/
def setProviderServer (st : ServiceState) (providerName : String) :
    Except String ServiceState :=
  if (regGet st.providers providerName).isSome then
    .ok { st with currentProvider := providerName }
  else
    .error ("Provider " ++ providerName ++ " not available")

/-- The `localStorage` key/value store (replace-on-set association list). -/
abbrev Store := List (String × String)

/-- `localStorage.getItem` (`none` models `null`). -/
def storeGet : Store → String → Option String
  | [], _ => none
  | (k', v) :: rest, k => if k' == k then some v else storeGet rest k

/-- `localStorage.setItem`. -/
def storeSet : Store → String → String → Store
  | [], k, v => [(k, v)]
  | (k', v') :: rest, k, v =>
    if k' == k then (k, v) :: rest else (k', v') :: storeSet rest k v

/-- Environment configuration (`import.meta.env.VITE_*_API_KEY`). -/
structure Env where
  openaiEnv : Option String
  geminiEnv : Option String

/-- JS `a || b` on string-or-null operands: the left value when truthy
(present and non-empty), else the right. -/
def orFalsy (a b : Option String) : Option String :=
  match a with
  | some s => if s == "" then b else some s
  | none => b

/-- Keep a string only when it is truthy (the `if (key)` guard). -/
def truthyStr : Option String → Option String
  | some s => if s == "" then none else some s
  | none => none

/-- `AIService.initializeProviders` of the TS client variant: register an
adapter for each provider whose env-or-stored key is truthy (no
validation). -/
def initializeProvidersTS (env : Env) (store : Store)
    (prev : List (String × ProviderInst)) : List (String × ProviderInst) :=
  let r1 :=
    match truthyStr (orFalsy env.openaiEnv (storeGet store "openai_api_key")) with
    | some k => regSet prev "openai" (.openai k)
    | none => prev
  match truthyStr (orFalsy env.geminiEnv (storeGet store "gemini_api_key")) with
  | some k => regSet r1 "gemini" (.gemini k)
  | none => r1

/-- `AIService.initializeProviders` of the validated variant: additionally
requires `isValidApiKey`. -/
def initializeProvidersV (env : Env) (store : Store)
    (prev : List (String × ProviderInst)) : List (String × ProviderInst) :=
  let r1 :=
    match truthyStr (orFalsy env.openaiEnv (storeGet store "openai_api_key")) with
    | some k => if isValidApiKey "openai" k then regSet prev "openai" (.openai k) else prev
    | none => prev
  match truthyStr (orFalsy env.geminiEnv (storeGet store "gemini_api_key")) with
  | some k => if isValidApiKey "gemini" k then regSet r1 "gemini" (.gemini k) else r1
  | none => r1

/-- `AIService.setApiKey` of the TS client variant: store the credential
unconditionally, re-run initialization, return nothing. -/
def setApiKeyTS (env : Env) (store : Store) (st : ServiceState)
    (provider apiKey : String) : Store × ServiceState :=
  let store1 := storeSet store (provider ++ "_api_key") apiKey
  (store1, { st with providers := initializeProvidersTS env store1 st.providers })

/-- `AIService.setApiKey` of the validated variant: store and re-initialize
only for a valid credential, reporting success as a boolean. -/
def setApiKeyV (env : Env) (store : Store) (st : ServiceState)
    (provider apiKey : String) : (Store × ServiceState) × Bool :=
  if isValidApiKey provider apiKey then
    let store1 := storeSet store (provider ++ "_api_key") apiKey
    ((store1, { st with providers := initializeProvidersV env store1 st.providers }), true)
  else
    ((store, st), false)

/-- The world of one `identifyContent` call: the id-generator draws, the
measured elapsed time, each adapter's single external call outcome, and the
pseudo-random platform list the enhancer would attach to the i-th result. -/
structure World where
  genId : Nat → String
  elapsed : Nat
  openaiCall : Except JsCause (Option String)
  geminiCall : Except JsCause String
  platforms : Nat → Json

/-- Dispatch to the registered adapter's `identify`. -/
def runProvider (w : World) : ProviderInst → AIResponse × Nat
  | .openai _ => openaiIdentify w.genId w.elapsed w.openaiCall
  | .gemini _ => geminiIdentify w.genId w.elapsed w.geminiCall

/-- `AIService.enhanceResults`: map over the results attaching a `platforms`
field (`none` models the TypeError thrown by `.map` on a non-array). -/
def enhanceResults (plat : Nat → Json) : Json → Option Json
  | Json.arr rs =>
    some (Json.arr (mapFrom (fun i r => Json.obj (fieldsOf r ++ [("platforms", plat i)])) 0 rs))
  | _ => none

/-- `AIService.identifyContent`, common to all three variants up to the
fallback envelope: dispatch to the active adapter (fallback without any
external call when none is registered), enhance the results of a successful
response, and substitute the fallback if anything inside the try throws.
Second component: external call attempts made. -/
def identifyContentWith (fallback : AIResponse) (w : World) (st : ServiceState) :
    AIResponse × Nat :=
  match regGet st.providers st.currentProvider with
  | none => (fallback, 0)
  | some p =>
    if (runProvider w p).1.success then
      match enhanceResults w.platforms (runProvider w p).1.results with
      | some rs => ({ (runProvider w p).1 with results := rs }, (runProvider w p).2)
      | none => (fallback, (runProvider w p).2)
    else runProvider w p

/-- The hardcoded demo match of the TS client fallback ("The Matrix"). -/
def matrixMatch : Json :=
  Json.obj
    [ ("id", Json.str "1")
    , ("title", Json.str "The Matrix")
    , ("year", Json.num 1999)
    , ("type", Json.str "movie")
    , ("genre", Json.arr [Json.str "Sci-Fi", Json.str "Action"])
    , ("rating", Json.num (87 / 10))
    , ("duration", Json.str "136 min")
    , ("description", Json.str "A computer programmer discovers that reality as he knows it is a simulation controlled by machines.")
    , ("poster", Json.str posterUrl400)
    , ("backdrop", Json.str backdropUrl800)
    , ("cast", Json.arr [Json.str "Keanu Reeves", Json.str "Laurence Fishburne", Json.str "Carrie-Anne Moss"])
    , ("director", Json.str "The Wachowskis")
    , ("confidence", Json.num 85)
    , ("platforms", Json.arr
        [ Json.obj [("name", Json.str "Netflix"), ("logo", Json.str "🎬"), ("available", Json.bool true), ("subscription", Json.bool true), ("link", Json.str "#")]
        , Json.obj [("name", Json.str "Amazon Prime"), ("logo", Json.str "📺"), ("available", Json.bool true), ("subscription", Json.bool true), ("link", Json.str "#")] ]) ]

/-- `AIService.getFallbackResponse` of the TS client variant: one fabricated
demo result with `success: true`. -/
def fallbackTS : AIResponse :=
  { success := true
  , results := Json.arr [matrixMatch]
  , processingTime := 1500
  , confidence := Json.num 85
  , error := none }

/-- `AIService.getFallbackResponse` of the validated client variant. -/
def fallbackV : AIResponse :=
  { success := false
  , results := Json.arr []
  , processingTime := 0
  , confidence := Json.num 0
  , error := some "No AI provider configured. Please configure OpenAI or Gemini API keys in settings." }

/-- `AIService.getFallbackResponse` of the server variant. -/
def fallbackServer : AIResponse :=
  { success := false
  , results := Json.arr []
  , processingTime := 0
  , confidence := Json.num 0
  , error := some "No AI provider configured. Please configure OpenAI or Gemini API keys." }

/-- `identifyContent` of the TS client variant. -/
def identifyContentTS : World → ServiceState → AIResponse × Nat :=
  identifyContentWith fallbackTS

/-- `identifyContent` of the validated client variant. -/
def identifyContentV : World → ServiceState → AIResponse × Nat :=
  identifyContentWith fallbackV

/-- `identifyContent` of the server variant. -/
def identifyContentServer : World → ServiceState → AIResponse × Nat :=
  identifyContentWith fallbackServer

/-! ### Concrete sample inputs for evaluations -/

/-- A world whose adapter calls both throw an `Error`. -/
def wThrow : World :=
  { genId := fun _ => "g"
  , elapsed := 0
  , openaiCall := .error ⟨true, "boom"⟩
  , geminiCall := .error ⟨true, "boom"⟩
  , platforms := fun _ => Json.arr [] }

/-- A service state with zero registered providers (the initial state when no
credential is configured). -/
def emptyRegistry : ServiceState := { providers := [], currentProvider := "openai" }

/-- An environment with no configured credential. -/
def env0 : Env := { openaiEnv := none, geminiEnv := none }

/-- A well-formed provider reply with a one-element `results` array. -/
def xReplyJson : String := "\x7b\"results\":[\x7b\"title\":\"X\"\x7d]\x7d"

/-- Another well-formed provider reply with a one-element `results` array. -/
def yReplyJson : String := "\x7b\"results\":[\x7b\"title\":\"Y\"\x7d]\x7d"

/-- A provider reply whose first result carries an out-of-range confidence. -/
def overConfReply : String :=
  "\x7b\"results\":[\x7b\"title\":\"A\",\"confidence\":150\x7d]\x7d"

/-- A reply whose extracted JSON has a truthy non-array `results` field,
embedded in surrounding prose. -/
def truthyNonArrayReply : String := "ok \x7b\"results\":5\x7d thanks"

/-- A raw reply containing no JSON at all. -/
def noJsonText : String := "I cannot identify this."

/-- Another raw reply containing no JSON at all. -/
def noJsonText2 : String := "No JSON here at all."

/-- A reply whose extracted JSON carries an empty `results` array. -/
def emptyResultsReply : String := "\x7b\"results\": []\x7d"

/-! ### Helper lemmas -/

theorem lookupLast_append (xs ys : List (String × Json)) (k : String) :
    lookupLast (xs ++ ys) k =
      (match lookupLast ys k with
       | some v => some v
       | none => lookupLast xs k) := by
  induction xs with
  | nil =>
    cases h : lookupLast ys k <;> simp [lookupLast, h]
  | cons p tl ih =>
    obtain ⟨k1, v1⟩ := p
    cases h : lookupLast ys k <;> cases h2 : lookupLast tl k <;>
      simp [lookupLast, ih, h, h2]

theorem getField_addIdArt_id (g : Nat → String) (i : Nat) (r : Json) :
    getField (addIdArt g i r) "id" = some (Json.str (g i)) := by
  show lookupLast (fieldsOf r ++
    [ ("id", Json.str (g i))
    , ("poster", Json.str posterUrl400)
    , ("backdrop", Json.str backdropUrl800) ]) "id" = some (Json.str (g i))
  rw [lookupLast_append]
  rfl

theorem getField_addIdArt_poster (g : Nat → String) (i : Nat) (r : Json) :
    getField (addIdArt g i r) "poster" = some (Json.str posterUrl400) := by
  show lookupLast (fieldsOf r ++
    [ ("id", Json.str (g i))
    , ("poster", Json.str posterUrl400)
    , ("backdrop", Json.str backdropUrl800) ]) "poster" = some (Json.str posterUrl400)
  rw [lookupLast_append]
  rfl

theorem getField_addIdArt_backdrop (g : Nat → String) (i : Nat) (r : Json) :
    getField (addIdArt g i r) "backdrop" = some (Json.str backdropUrl800) := by
  show lookupLast (fieldsOf r ++
    [ ("id", Json.str (g i))
    , ("poster", Json.str posterUrl400)
    , ("backdrop", Json.str backdropUrl800) ]) "backdrop" = some (Json.str backdropUrl800)
  rw [lookupLast_append]
  rfl

theorem mapFrom_length (f : Nat → Json → Json) (n : Nat) (l : List Json) :
    (mapFrom f n l).length = l.length := by
  induction l generalizing n with
  | nil => rfl
  | cons r rs ih => simp [mapFrom, ih]

theorem mapFrom_get (f : Nat → Json → Json) (n : Nat) (l : List Json) (i : Nat)
    (h : i < l.length) (h2 : i < (mapFrom f n l).length) :
    (mapFrom f n l).get ⟨i, h2⟩ = f (n + i) (l.get ⟨i, h⟩) := by
  induction l generalizing n i with
  | nil => exact absurd h (Nat.not_lt_zero i)
  | cons r rs ih =>
    cases i with
    | zero => rfl
    | succ j =>
      have hj : j < rs.length := Nat.lt_of_succ_lt_succ h
      have hj2 : j < (mapFrom f (n + 1) rs).length := by
        rw [mapFrom_length]; exact hj
      have e1 : (mapFrom f n (r :: rs)).get ⟨j + 1, h2⟩ =
          (mapFrom f (n + 1) rs).get ⟨j, hj2⟩ := rfl
      have e2 : (r :: rs).get ⟨j + 1, h⟩ = rs.get ⟨j, hj⟩ := rfl
      have e3 : n + 1 + j = n + (j + 1) := by omega
      rw [e1, e2, ih (n + 1) j hj hj2, e3]

theorem dropToBrace_append (pre l : List Char) (hpre : '{' ∉ pre) :
    dropToBrace (pre ++ l) = dropToBrace l := by
  induction pre with
  | nil => rfl
  | cons c cs ih =>
    have hc : ¬c = '{' := fun h => hpre (by simp [h])
    have hcs : '{' ∉ cs := fun h => hpre (List.mem_cons_of_mem _ h)
    simp [dropToBrace, hc, ih hcs]

theorem takeToLastClose_none (l : List Char) (h : '}' ∉ l) :
    takeToLastClose l = none := by
  induction l with
  | nil => rfl
  | cons c cs ih =>
    have hc : ¬c = '}' := fun e => h (by simp [e])
    have hcs : '}' ∉ cs := fun e => h (List.mem_cons_of_mem _ e)
    simp [takeToLastClose, ih hcs, hc]

theorem takeToLastClose_append (l post : List Char) (h : '}' ∉ post) :
    takeToLastClose (l ++ post) = takeToLastClose l := by
  induction l with
  | nil => simpa [takeToLastClose] using takeToLastClose_none post h
  | cons c cs ih =>
    simp only [List.cons_append, takeToLastClose, List.append_eq, ih]

theorem takeToLastClose_ends (l : List Char) :
    takeToLastClose (l ++ ['}']) = some (l ++ ['}']) := by
  induction l with
  | nil => rfl
  | cons c cs ih => simp [takeToLastClose, ih]

/-- The greedy brace regex on `pre ++ sub ++ post`, where no opening brace
occurs before `sub`, no closing brace after it, and `sub` itself is delimited
by braces, matches exactly `sub`. -/
theorem extractBraces_decomp (pre mid post : List Char)
    (hpre : '{' ∉ pre) (hpost : '}' ∉ post) :
    extractBraces (pre ++ ('{' :: (mid ++ ['}'])) ++ post) =
      some ('{' :: (mid ++ ['}'])) := by
  have h1 : dropToBrace (pre ++ ('{' :: ((mid ++ ['}']) ++ post))) =
      some ('{' :: ((mid ++ ['}']) ++ post)) := by
    rw [dropToBrace_append pre _ hpre]
    simp [dropToBrace]
  have h2 : takeToLastClose ((mid ++ ['}']) ++ post) = some (mid ++ ['}']) := by
    rw [takeToLastClose_append _ _ hpost, takeToLastClose_ends]
  have e : (pre ++ ('{' :: (mid ++ ['}']))) ++ post =
      pre ++ ('{' :: ((mid ++ ['}']) ++ post)) := by simp
  rw [e]
  simp only [extractBraces, h1, h2]

theorem openaiIdentify_false_shape (g : Nat → String) (e : Nat)
    (call : Except JsCause (Option String))
    (h : (openaiIdentify g e call).1.success = false) :
    (openaiIdentify g e call).1.results = Json.arr [] ∧
      (openaiIdentify g e call).1.confidence = Json.num 0 := by
  unfold openaiIdentify at *
  rcases call with c | content
  · exact ⟨rfl, rfl⟩
  · rcases content with _ | s
    · exact ⟨rfl, rfl⟩
    · by_cases hs : s = "" <;> simp only [hs, if_true, if_false, reduceIte] at *
      · exact ⟨rfl, rfl⟩
      · rcases hp : parseJson s with _ | p <;> simp only [hp] at *
        · exact ⟨rfl, rfl⟩
        · rcases hf : getField p "results" with _ | v <;> simp only [hf] at *
          · exact ⟨rfl, rfl⟩
          · rcases v with _ | b | q | s1 | rs | fs <;> simp_all [failResp]

theorem geminiIdentify_false_shape (g : Nat → String) (e : Nat)
    (call : Except JsCause String)
    (h : (geminiIdentify g e call).1.success = false) :
    (geminiIdentify g e call).1.results = Json.arr [] ∧
      (geminiIdentify g e call).1.confidence = Json.num 0 := by
  unfold geminiIdentify at *
  rcases call with c | text
  · exact ⟨rfl, rfl⟩
  · simp at h

theorem runProvider_false_shape (w : World) (p : ProviderInst)
    (h : (runProvider w p).1.success = false) :
    (runProvider w p).1.results = Json.arr [] ∧
      (runProvider w p).1.confidence = Json.num 0 := by
  cases p with
  | openai k => exact openaiIdentify_false_shape w.genId w.elapsed w.openaiCall h
  | gemini k => exact geminiIdentify_false_shape w.genId w.elapsed w.geminiCall h

theorem identifyContentWith_false_inv (fb : AIResponse) (w : World) (st : ServiceState)
    (hfb : fb.success = false → fb.results = Json.arr [] ∧ fb.confidence = Json.num 0) :
    (identifyContentWith fb w st).1.success = false →
      (identifyContentWith fb w st).1.results = Json.arr [] ∧
        (identifyContentWith fb w st).1.confidence = Json.num 0 := by
  unfold identifyContentWith
  split
  · exact fun h => hfb h
  · split
    · split
      · intro h
        simp_all
      · exact fun h => hfb h
    · intro h
      exact runProvider_false_shape w _ h

theorem openaiIdentify_callCount (g : Nat → String) (e : Nat)
    (call : Except JsCause (Option String)) : (openaiIdentify g e call).2 = 1 := by
  unfold openaiIdentify
  repeat
    first
    | rfl
    | split

theorem geminiIdentify_callCount (g : Nat → String) (e : Nat)
    (call : Except JsCause String) : (geminiIdentify g e call).2 = 1 := by
  cases call <;> rfl

theorem openaiIdentify_ok (g : Nat → String) (e : Nat) (s : String) (p : Json)
    (rs : List Json) (hs : ¬ s = "") (hp : parseJson s = some p)
    (hr : getField p "results" = some (Json.arr rs)) :
    openaiIdentify g e (.ok (some s)) =
      ({ success := true, results := Json.arr (mapFrom (addIdArt g) 0 rs), processingTime := e
       , confidence := openaiTopConfidence rs, error := none }, 1) := by
  simp only [openaiIdentify, hs, hp, hr, reduceIte, ite_false]

theorem parseGeminiResponse_truthy (gid text : String) (p v : Json)
    (hext : geminiExtractParse text = some p)
    (hv : getField p "results" = some v) (ht : v.truthy = true) :
    parseGeminiResponse gid text = v := by
  simp only [parseGeminiResponse, hext, hv, ht, reduceIte, ite_true]

theorem parseGeminiResponse_falsy (gid text : String) (p v : Json)
    (hext : geminiExtractParse text = some p)
    (hv : getField p "results" = some v) (ht : v.truthy = false) :
    parseGeminiResponse gid text = Json.arr [p] := by
  simp only [parseGeminiResponse, hext, hv, ht, reduceIte, ite_false, Bool.false_eq_true]

theorem parseGeminiResponse_absent (gid text : String) (p : Json)
    (hext : geminiExtractParse text = some p)
    (hv : getField p "results" = none) :
    parseGeminiResponse gid text = Json.arr [p] := by
  simp only [parseGeminiResponse, hext, hv]

theorem parseGeminiResponse_noJson (gid text : String)
    (hext : geminiExtractParse text = none) :
    parseGeminiResponse gid text = Json.arr [geminiFallbackMatch gid text] := by
  simp only [parseGeminiResponse, hext]

/-! ### The claims -/

/-- C1 counterexample: the claim states that with zero providers registered
`identifyContent` returns `success = false` with an empty results list.  The
variant of src/src/services/aiService.ts instead returns its hardcoded demo
response: `success = true` with one fabricated match (and zero external
calls). -/
theorem C1_counterexample :
    (identifyContentTS wThrow emptyRegistry).1.success = true ∧
    (identifyContentTS wThrow emptyRegistry).1.results ≠ Json.arr [] ∧
    (identifyContentTS wThrow emptyRegistry).1.results = Json.arr [matrixMatch] ∧
    (identifyContentTS wThrow emptyRegistry).2 = 0 := by
  refine ⟨rfl, by decide, rfl, rfl⟩

/-- C1 (amended): with zero providers registered, the validated-client and
server variants of `identifyContent` return their `success = false` fallback
with an empty results list and confidence 0, contacting no network service
(zero external calls); the aiService.ts client variant instead returns its
hardcoded demo response with `success = true` and one fabricated match, also
without any external call. -/
theorem C1_zero_providers (w : World) (cur : String) :
    identifyContentV w { providers := [], currentProvider := cur } = (fallbackV, 0) ∧
    identifyContentServer w { providers := [], currentProvider := cur } = (fallbackServer, 0) ∧
    identifyContentTS w { providers := [], currentProvider := cur } = (fallbackTS, 0) ∧
    fallbackV.success = false ∧ fallbackV.results = Json.arr [] ∧
    fallbackV.confidence = Json.num 0 ∧
    fallbackServer.success = false ∧ fallbackServer.results = Json.arr [] ∧
    fallbackServer.confidence = Json.num 0 ∧
    fallbackTS.success = true ∧ fallbackTS.results = Json.arr [matrixMatch] :=
  ⟨rfl, rfl, rfl, rfl, rfl, rfl, rfl, rfl, rfl, rfl, rfl⟩

/-- C2: when the single external provider call throws an `Error`, each
adapter's catch branch returns exactly
`(success := false, results := [], processingTime := elapsed,
confidence := 0, error := the cause's message)`, and on every path exactly one
external call attempt is made (nothing is retried). -/
theorem C2_catch_branch (g : Nat → String) (e : Nat) (c : JsCause)
    (h : c.isError = true) :
    openaiIdentify g e (.error c) =
      ({ success := false, results := Json.arr [], processingTime := e
       , confidence := Json.num 0, error := some c.message }, 1) ∧
    geminiIdentify g e (.error c) =
      ({ success := false, results := Json.arr [], processingTime := e
       , confidence := Json.num 0, error := some c.message }, 1) ∧
    (∀ call, (openaiIdentify g e call).2 = 1) ∧
    (∀ call, (geminiIdentify g e call).2 = 1) := by
  refine ⟨?_, ?_, openaiIdentify_callCount g e, geminiIdentify_callCount g e⟩
  · simp [openaiIdentify, failResp, h]
  · simp [geminiIdentify, failResp, h]

/-- Witness for C2 at a concrete thrown `Error`. -/
theorem C2_catch_branch_witness :
    (JsCause.mk true "network down").isError = true ∧
    openaiIdentify (fun _ => "g") 7 (.error ⟨true, "network down"⟩) =
      ({ success := false, results := Json.arr [], processingTime := 7
       , confidence := Json.num 0, error := some "network down" }, 1) :=
  ⟨rfl, (C2_catch_branch (fun _ => "g") 7 ⟨true, "network down"⟩ rfl).1⟩

/-- C7 counterexample: the claim states that `setProvider` with an
unregistered key raises no error in all variants; the server variant
(src/server/services/aiService.js) throws `Provider <name> not available`. -/
theorem C7_counterexample :
    setProviderServer emptyRegistry "gemini" =
      .error "Provider gemini not available" := by
  rfl

/-- C7 (amended): `setProvider` with an unregistered key leaves the active
selection and the registered adapters unchanged in every variant; the client
variants do so silently, while the server variant raises the error
`Provider <name> not available`. -/
theorem C7_unregistered_key (st : ServiceState) (name : String)
    (h : regGet st.providers name = none) :
    setProviderClient st name = st ∧
    setProviderServer st name = .error ("Provider " ++ name ++ " not available") := by
  unfold setProviderClient setProviderServer
  rw [h]
  exact ⟨rfl, rfl⟩

/-- Witness for C7 on the empty registry. -/
theorem C7_unregistered_key_witness :
    regGet emptyRegistry.providers "gemini" = none ∧
    setProviderClient emptyRegistry "gemini" = emptyRegistry :=
  ⟨rfl, (C7_unregistered_key emptyRegistry "gemini" rfl).1⟩

/-- C8 counterexample: the claim states that `setApiKey` validates the
credential and leaves registry and stored keys unchanged when it is invalid.
The aiService.ts variant stores an invalid credential unconditionally and even
registers an adapter built from it. -/
theorem C8_counterexample :
    isValidApiKey "openai" "bad" = false ∧
    (setApiKeyTS env0 [] emptyRegistry "openai" "bad").1 =
      [("openai_api_key", "bad")] ∧
    (setApiKeyTS env0 [] emptyRegistry "openai" "bad").2.providers =
      [("openai", ProviderInst.openai "bad")] := by
  refine ⟨by decide, by decide, by decide⟩

/-- C8 (amended): the validated variant of `setApiKey`
(src/src/services/aiProviders.ts) checks the credential against
`isValidApiKey` (non-empty, no placeholder substring, provider-specific
prefix/length heuristic), raises no error, returns a boolean success
indicator, and on an invalid credential leaves both the store and the
registry unchanged; the aiService.ts variant instead stores the credential
unconditionally, with no validation and no return value. -/
theorem C8_invalid_credential (env : Env) (store : Store) (st : ServiceState)
    (provider apiKey : String) (h : isValidApiKey provider apiKey = false) :
    setApiKeyV env store st provider apiKey = ((store, st), false) ∧
    (setApiKeyTS env store st provider apiKey).1 =
      storeSet store (provider ++ "_api_key") apiKey := by
  constructor
  · unfold setApiKeyV
    rw [h]
    rfl
  · rfl

/-- Witness for C8 at a concrete invalid credential. -/
theorem C8_invalid_credential_witness :
    isValidApiKey "gemini" "nope" = false ∧
    setApiKeyV env0 [] emptyRegistry "gemini" "nope" = (([], emptyRegistry), false) :=
  ⟨by decide, (C8_invalid_credential env0 [] emptyRegistry "gemini" "nope" (by decide)).1⟩

/-- C10: a provider reply whose extracted JSON object carries an empty
`results` array (which is truthy in JS) makes the Gemini adapter return
`success = true` together with an empty results list, so `success = true`
does not imply at least one match. -/
theorem C10_success_without_match :
    (geminiIdentify (fun _ => "gid10") 4 (.ok emptyResultsReply)).1.success = true ∧
    (geminiIdentify (fun _ => "gid10") 4 (.ok emptyResultsReply)).1.results = Json.arr [] := by
  refine ⟨rfl, by decide⟩

/-- C3 counterexample: the claim states that every successful adapter call
with a well-formed `results` array of length N yields N records, each with a
freshly generated id and both image URLs.  The Gemini adapter's JSON success
path returns the parsed records unchanged: no id is generated and no image
URL is populated. -/
theorem C3_counterexample :
    (geminiIdentify (fun _ => "gid3") 3 (.ok xReplyJson)).1.success = true ∧
    (geminiIdentify (fun _ => "gid3") 3 (.ok xReplyJson)).1.results =
      Json.arr [Json.obj [("title", Json.str "X")]] ∧
    getField (Json.obj [("title", Json.str "X")]) "id" = none ∧
    getField (Json.obj [("title", Json.str "X")]) "poster" = none ∧
    getField (Json.obj [("title", Json.str "X")]) "backdrop" = none := by
  refine ⟨rfl, by decide, rfl, rfl, rfl⟩

/-- C3 (amended): for a well-formed reply whose parsed `results` array has N
entries, the OpenAI normalizer returns exactly N records, stamping the i-th
with the i-th freshly drawn id (so ids are pairwise distinct whenever the id
generator is injective) and populating both image URL fields with the
placeholder URLs; the Gemini JSON success path also returns exactly N records
but passes them through unchanged, without generated ids or image URLs. -/
theorem C3_normalizer (g : Nat → String) (e : Nat) (s : String) (p : Json)
    (rs : List Json) (hs : ¬ s = "") (hp : parseJson s = some p)
    (hr : getField p "results" = some (Json.arr rs)) :
    (openaiIdentify g e (.ok (some s))).1.results = Json.arr (mapFrom (addIdArt g) 0 rs) ∧
    (mapFrom (addIdArt g) 0 rs).length = rs.length ∧
    (∀ i (h1 : i < rs.length) (h2 : i < (mapFrom (addIdArt g) 0 rs).length),
      getField ((mapFrom (addIdArt g) 0 rs).get ⟨i, h2⟩) "id" = some (Json.str (g i)) ∧
      getField ((mapFrom (addIdArt g) 0 rs).get ⟨i, h2⟩) "poster" = some (Json.str posterUrl400) ∧
      getField ((mapFrom (addIdArt g) 0 rs).get ⟨i, h2⟩) "backdrop" = some (Json.str backdropUrl800)) ∧
    (Function.Injective g →
      ∀ i j (hi : i < (mapFrom (addIdArt g) 0 rs).length)
        (hj : j < (mapFrom (addIdArt g) 0 rs).length), i ≠ j →
        getField ((mapFrom (addIdArt g) 0 rs).get ⟨i, hi⟩) "id" ≠
          getField ((mapFrom (addIdArt g) 0 rs).get ⟨j, hj⟩) "id") ∧
    (∀ text, geminiExtractParse text = some p →
      parseGeminiResponse (g 0) text = Json.arr rs) := by
  refine ⟨?_, mapFrom_length _ _ _, ?_, ?_, ?_⟩
  · rw [openaiIdentify_ok g e s p rs hs hp hr]
  · intro i h1 h2
    rw [mapFrom_get (addIdArt g) 0 rs i h1 h2, Nat.zero_add]
    exact ⟨getField_addIdArt_id g i _, getField_addIdArt_poster g i _,
      getField_addIdArt_backdrop g i _⟩
  · intro hinj i j hi hj hne
    have h1 : i < rs.length := by rw [mapFrom_length] at hi; exact hi
    have h2 : j < rs.length := by rw [mapFrom_length] at hj; exact hj
    rw [mapFrom_get (addIdArt g) 0 rs i h1 hi, mapFrom_get (addIdArt g) 0 rs j h2 hj,
      Nat.zero_add, Nat.zero_add, getField_addIdArt_id, getField_addIdArt_id]
    intro hcon
    exact hne (hinj (Json.str.inj (Option.some.inj hcon)))
  · intro text hext
    exact parseGeminiResponse_truthy (g 0) text p (Json.arr rs) hext hr rfl

/-- Witness for C3 (amended) on a concrete one-element reply. -/
theorem C3_normalizer_witness :
    ¬ yReplyJson = "" ∧
    (openaiIdentify (fun n => toString n) 5 (.ok (some yReplyJson))).1.results =
      Json.arr (mapFrom (addIdArt (fun n => toString n)) 0 [Json.obj [("title", Json.str "Y")]]) :=
  ⟨by decide, (C3_normalizer (fun n => toString n) 5 yReplyJson
      (Json.obj [("results", Json.arr [Json.obj [("title", Json.str "Y")]])])
      [Json.obj [("title", Json.str "Y")]] (by decide) (by decide) (by decide)).1⟩

/-- C4 counterexample: the claim states that confidence always lies in
[0, 100] regardless of the provider reply.  A reply whose first result
reports confidence 150 makes the OpenAI adapter return top-level confidence
150 (and the per-result confidence 150 is passed through as well). -/
theorem C4_counterexample :
    (openaiIdentify (fun _ => "g4") 3 (.ok (some overConfReply))).1.success = true ∧
    (openaiIdentify (fun _ => "g4") 3 (.ok (some overConfReply))).1.confidence =
      Json.num 150 ∧
    ¬ ((150 : ℚ) ≤ 100) := by
  refine ⟨by decide, by decide, by norm_num⟩

/-- C4 (amended): the confidences the code itself supplies lie within
[0, 100] — 0 on every failure envelope, 88 for a successful Gemini call, 75
in the degraded Gemini match, and the OpenAI default 85 when the first
result's confidence is absent — but a confidence reported inside the provider
reply is passed through unvalidated, so it lies in [0, 100] only when the
reply's value does. -/
theorem C4_confidence (g : Nat → String) (e : Nat) :
    (∀ c, (openaiIdentify g e (.error c)).1.confidence = Json.num 0) ∧
    (∀ c, (geminiIdentify g e (.error c)).1.confidence = Json.num 0) ∧
    (∀ text, (geminiIdentify g e (.ok text)).1.confidence = Json.num 88) ∧
    (∀ gid text, getField (geminiFallbackMatch gid text) "confidence" = some (Json.num 75)) ∧
    (∀ s p r0 rest q, ¬ s = "" → parseJson s = some p →
      getField p "results" = some (Json.arr (r0 :: rest)) →
      getField r0 "confidence" = some (Json.num q) → ¬ q = 0 →
      (openaiIdentify g e (.ok (some s))).1.confidence = Json.num q) ∧
    (∀ s p r0 rest, ¬ s = "" → parseJson s = some p →
      getField p "results" = some (Json.arr (r0 :: rest)) →
      getField r0 "confidence" = none →
      (openaiIdentify g e (.ok (some s))).1.confidence = Json.num 85) ∧
    (0 ≤ (0 : ℚ) ∧ (0 : ℚ) ≤ 100) ∧ (0 ≤ (75 : ℚ) ∧ (75 : ℚ) ≤ 100) ∧
    (0 ≤ (85 : ℚ) ∧ (85 : ℚ) ≤ 100) ∧ (0 ≤ (88 : ℚ) ∧ (88 : ℚ) ≤ 100) := by
  refine ⟨fun c => rfl, fun c => rfl, fun text => rfl, fun gid text => rfl,
    ?_, ?_, by norm_num, by norm_num, by norm_num, by norm_num⟩
  · intro s p r0 rest q hs hp hr hq hq0
    rw [openaiIdentify_ok g e s p (r0 :: rest) hs hp hr]
    show openaiTopConfidence (r0 :: rest) = Json.num q
    simp only [openaiTopConfidence, List.head?, hq, Json.truthy]
    simp [hq0]
  · intro s p r0 rest hs hp hr hq
    rw [openaiIdentify_ok g e s p (r0 :: rest) hs hp hr]
    show openaiTopConfidence (r0 :: rest) = Json.num 85
    simp only [openaiTopConfidence, List.head?, hq]

/-- Witness for C4 (amended): the out-of-range pass-through and the 0 default
at concrete inputs. -/
theorem C4_confidence_witness :
    (openaiIdentify (fun _ => "w") 9 (.error ⟨true, "x"⟩)).1.confidence = Json.num 0 ∧
    (openaiIdentify (fun _ => "w") 9 (.ok (some overConfReply))).1.confidence =
      Json.num 150 := by
  have h := C4_confidence (fun _ => "w") 9
  refine ⟨h.1 ⟨true, "x"⟩, ?_⟩
  exact h.2.2.2.2.1 overConfReply
    (Json.obj [("results", Json.arr [Json.obj [("title", Json.str "A"), ("confidence", Json.num 150)]])])
    (Json.obj [("title", Json.str "A"), ("confidence", Json.num 150)]) [] 150
    (by decide) (by decide) (by decide) (by decide) (by norm_num)

/-- C5 counterexample: the claim states that when the extracted JSON object
has no `results` array, the whole parsed object is wrapped as a
single-element match list.  For `results: 5` (present, truthy, not an array)
the normalizer returns the bare value `5` — neither a results array nor a
single-element list. -/
theorem C5_counterexample :
    parseGeminiResponse "gid5" truthyNonArrayReply = Json.num 5 ∧
    Json.isArr (parseGeminiResponse "gid5" truthyNonArrayReply) = false ∧
    parseGeminiResponse "gid5" truthyNonArrayReply ≠
      Json.arr [Json.obj [("results", Json.num 5)]] := by
  refine ⟨by decide, by decide, by decide⟩

/-- C5 (amended): on text decomposing as prose (no opening brace), a
brace-delimited JSON substring, and trailing prose (no closing brace), the
greedy bracket match extracts exactly that substring; after parsing it, the
normalizer returns the value of its `results` field whenever that value is
truthy (any array qualifies, even an empty one), and wraps the whole parsed
object as a single-element match list when the field is absent or falsy. -/
theorem C5_greedy_extraction (gid : String) (pre mid post : List Char) (p : Json)
    (hpre : '{' ∉ pre) (hpost : '}' ∉ post)
    (hp : parseJson (String.mk ('{' :: (mid ++ ['}']))) = some p) :
    (∀ a, getField p "results" = some (Json.arr a) →
      parseGeminiResponse gid (String.mk (pre ++ ('{' :: (mid ++ ['}'])) ++ post)) =
        Json.arr a) ∧
    (∀ v, getField p "results" = some v → v.truthy = true →
      parseGeminiResponse gid (String.mk (pre ++ ('{' :: (mid ++ ['}'])) ++ post)) = v) ∧
    (∀ v, getField p "results" = some v → v.truthy = false →
      parseGeminiResponse gid (String.mk (pre ++ ('{' :: (mid ++ ['}'])) ++ post)) =
        Json.arr [p]) ∧
    (getField p "results" = none →
      parseGeminiResponse gid (String.mk (pre ++ ('{' :: (mid ++ ['}'])) ++ post)) =
        Json.arr [p]) := by
  have hext : geminiExtractParse
      (String.mk (pre ++ ('{' :: (mid ++ ['}'])) ++ post)) = some p := by
    unfold geminiExtractParse
    have e : (String.mk (pre ++ ('{' :: (mid ++ ['}'])) ++ post)).toList =
        pre ++ ('{' :: (mid ++ ['}'])) ++ post := rfl
    rw [e, extractBraces_decomp pre mid post hpre hpost]
    exact hp
  refine ⟨?_, ?_, ?_, ?_⟩
  · intro a ha
    exact parseGeminiResponse_truthy gid _ p (Json.arr a) hext ha rfl
  · intro v hv ht
    exact parseGeminiResponse_truthy gid _ p v hext hv ht
  · intro v hv ht
    exact parseGeminiResponse_falsy gid _ p v hext hv ht
  · intro hv
    exact parseGeminiResponse_absent gid _ p hext hv

/-- Witness for C5 (amended) on concrete prose-wrapped JSON. -/
theorem C5_greedy_extraction_witness :
    parseGeminiResponse "gw"
      (String.mk (("ok ".toList) ++ ('{' :: (("\"results\":5".toList) ++ ['}'])) ++
        (" thanks".toList))) = Json.num 5 :=
  (C5_greedy_extraction "gw" "ok ".toList "\"results\":5".toList " thanks".toList
    (Json.obj [("results", Json.num 5)]) (by decide) (by decide) (by decide)).2.1
    (Json.num 5) (by decide) (by decide)

set_option maxRecDepth 4000 in
/-- C6 counterexample: the claim states that the degraded match's synopsis is
the first 200 characters of the raw reply; the code appends an ellipsis, so
the synopsis is those characters followed by `...`. -/
theorem C6_counterexample :
    parseGeminiResponse "gid6" noJsonText =
      Json.arr [geminiFallbackMatch "gid6" noJsonText] ∧
    getField (geminiFallbackMatch "gid6" noJsonText) "description" =
      some (Json.str "I cannot identify this....") ∧
    "I cannot identify this...." ≠ noJsonText.take 200 := by
  refine ⟨by decide, by decide, by decide⟩

/-- C6 (amended): when no JSON can be extracted from the raw reply, the
normalizer returns exactly one synthetic match whose synopsis is the first
200 characters of the reply followed by an ellipsis and whose confidence is
the degraded constant 75, strictly lower than both success-path defaults (85
and 88), while the enclosing Gemini response still reports
`success = true`. -/
theorem C6_degraded (gid : String) (g : Nat → String) (e : Nat) (text : String)
    (hext : geminiExtractParse text = none) :
    parseGeminiResponse gid text = Json.arr [geminiFallbackMatch gid text] ∧
    getField (geminiFallbackMatch gid text) "description" =
      some (Json.str (text.take 200 ++ "...")) ∧
    getField (geminiFallbackMatch gid text) "confidence" = some (Json.num 75) ∧
    (75 : ℚ) < 85 ∧ (75 : ℚ) < 88 ∧
    (geminiIdentify g e (.ok text)).1.success = true ∧
    (geminiIdentify g e (.ok text)).1.results =
      Json.arr [geminiFallbackMatch (g 0) text] := by
  refine ⟨parseGeminiResponse_noJson gid text hext, rfl, rfl, by norm_num, by norm_num,
    rfl, ?_⟩
  show parseGeminiResponse (g 0) text = _
  exact parseGeminiResponse_noJson (g 0) text hext

/-- Witness for C6 (amended) on a concrete JSON-free reply. -/
theorem C6_degraded_witness :
    geminiExtractParse noJsonText2 = none ∧
    parseGeminiResponse "gw6" noJsonText2 = Json.arr [geminiFallbackMatch "gw6" noJsonText2] :=
  ⟨by decide, (C6_degraded "gw6" (fun _ => "gw6") 2 noJsonText2 (by decide)).1⟩

/-- C9: every response produced with `success = false` — by either adapter's
`identify` or by any of the three `identifyContent` variants — carries an
empty results list and confidence 0. -/
theorem C9_failure_empty :
    (∀ g e call, (openaiIdentify g e call).1.success = false →
      (openaiIdentify g e call).1.results = Json.arr [] ∧
      (openaiIdentify g e call).1.confidence = Json.num 0) ∧
    (∀ g e call, (geminiIdentify g e call).1.success = false →
      (geminiIdentify g e call).1.results = Json.arr [] ∧
      (geminiIdentify g e call).1.confidence = Json.num 0) ∧
    (∀ w st, (identifyContentTS w st).1.success = false →
      (identifyContentTS w st).1.results = Json.arr [] ∧
      (identifyContentTS w st).1.confidence = Json.num 0) ∧
    (∀ w st, (identifyContentV w st).1.success = false →
      (identifyContentV w st).1.results = Json.arr [] ∧
      (identifyContentV w st).1.confidence = Json.num 0) ∧
    (∀ w st, (identifyContentServer w st).1.success = false →
      (identifyContentServer w st).1.results = Json.arr [] ∧
      (identifyContentServer w st).1.confidence = Json.num 0) := by
  refine ⟨openaiIdentify_false_shape, geminiIdentify_false_shape, ?_, ?_, ?_⟩
  · intro w st
    exact identifyContentWith_false_inv fallbackTS w st (fun hf => absurd hf (by decide))
  · intro w st
    exact identifyContentWith_false_inv fallbackV w st (fun _ => ⟨rfl, rfl⟩)
  · intro w st
    exact identifyContentWith_false_inv fallbackServer w st (fun _ => ⟨rfl, rfl⟩)

/-- Witness for C9 at concrete failing calls. -/
theorem C9_failure_empty_witness :
    (openaiIdentify (fun _ => "g9") 6 (.error ⟨true, "oops"⟩)).1.success = false ∧
    (openaiIdentify (fun _ => "g9") 6 (.error ⟨true, "oops"⟩)).1.results = Json.arr [] ∧
    (identifyContentV wThrow emptyRegistry).1.success = false ∧
    (identifyContentV wThrow emptyRegistry).1.results = Json.arr [] := by
  refine ⟨rfl, (C9_failure_empty.1 (fun _ => "g9") 6 (.error ⟨true, "oops"⟩) rfl).1,
    rfl, (C9_failure_empty.2.2.2.1 wThrow emptyRegistry rfl).1⟩
